import Mathlib

/-!
Shallow embedding of the codec layer of the nfc-pcsc repository
(`src/command.rs` and `src/atr.rs`), together with theorems settling the
specification claims about it.

Bytes are modelled as `Nat` (with hypotheses `< 256` where the Rust `u8`
type matters); Rust `Result` becomes `Except`; a Rust panic (an
out-of-bounds index, a failing `unwrap`, or a `todo!()`) is modelled by
wrapping the result in `Option`, with `none` standing for the panic.
-/

deriving instance DecidableEq for Except

namespace NfcPcsc

/-- `PcscCodecError` from `src/command.rs`. The `Pcsc` variant carries an
external transport error in the source; that payload is out of the codec's
scope and is dropped here. -/
inductive PcscCodecError where
  | Pcsc
  | TooShort
  | TooLong
  | WrongClass
deriving DecidableEq, Repr

/-- `KeyType` from `src/command.rs`. -/
inductive KeyType where
  | Unknown (value : Nat)
  | MifareA
  | MifareB
deriving DecidableEq, Repr

/-- `impl From<u8> for KeyType`. -/
def KeyType.fromByte (value : Nat) : KeyType :=
  if value = 0x60 then .MifareA
  else if value = 0x61 then .MifareB
  else .Unknown value

/-- `impl From<KeyType> for u8`. -/
def KeyType.toByte : KeyType → Nat
  | .Unknown o => o
  | .MifareA => 0x60
  | .MifareB => 0x61

/-- `PcscInstruction` from `src/command.rs`. -/
inductive PcscInstruction where
  | GetData (le : Nat)
  | LoadKeys (data : List Nat)
  | GeneralAuthenticate (address : Nat) (key_type : KeyType) (key_id : Nat)
  | Verify (data : List Nat)
  | ReadBinary (le : Nat)
  | UpdateBinary (data : List Nat)
deriving DecidableEq, Repr

/-- `PcscCommand` from `src/command.rs`. -/
structure PcscCommand where
  ins : PcscInstruction
  p1 : Nat
  p2 : Nat
deriving DecidableEq, Repr

/-- `PcscCommand::MIN_LENGTH` (class + ins + p1 + p2 + le/lc). -/
def PcscCommand.MIN_LENGTH : Nat := 5

/-- `PcscCommand::MAX_LENGTH` (`5 + u8::MAX`). -/
def PcscCommand.MAX_LENGTH : Nat := 5 + 255

/-- `PcscCommand::ins_code`. -/
def PcscCommand.ins_code (c : PcscCommand) : Nat :=
  match c.ins with
  | .GetData _ => 0xCA
  | .LoadKeys _ => 0x82
  | .GeneralAuthenticate _ _ _ => 0x86
  | .Verify _ => 0x20
  | .ReadBinary _ => 0xB0
  | .UpdateBinary _ => 0xD6

/-- `impl TryFrom<&[u8]> for PcscCommand` (decode). `none` models a Rust
panic: the `todo!()` arm for an unknown instruction byte, and the
out-of-bounds indices `value[6..9]` in the `0x86` arm when the frame is
shorter than 10 bytes. Indices 0 to 4 are guarded by the `MIN_LENGTH`
check, so `getD` is exact for them. -/
def PcscCommand.tryFrom (value : List Nat) : Option (Except PcscCodecError PcscCommand) :=
  if value.length < PcscCommand.MIN_LENGTH then some (.error .TooShort)
  else if value.length > PcscCommand.MAX_LENGTH then some (.error .TooLong)
  else if value.getD 0 0 ≠ 0xFF then some (.error .WrongClass)
  else
    let p1 := value.getD 2 0
    let p2 := value.getD 3 0
    let b1 := value.getD 1 0
    if b1 = 0xCA then some (.ok ⟨.GetData (value.getD 4 0), p1, p2⟩)
    else if b1 = 0x82 then some (.ok ⟨.LoadKeys (value.drop 5), p1, p2⟩)
    else if b1 = 0x86 then
      match value[6]?, value[7]?, value[8]?, value[9]? with
      | some b6, some b7, some b8, some b9 =>
          some (.ok ⟨.GeneralAuthenticate (256 * b6 + b7) (KeyType.fromByte b8) b9, p1, p2⟩)
      | _, _, _, _ => none
    else if b1 = 0x20 then some (.ok ⟨.Verify (value.drop 5), p1, p2⟩)
    else if b1 = 0xB0 then some (.ok ⟨.ReadBinary (value.getD 4 0), p1, p2⟩)
    else if b1 = 0xD6 then some (.ok ⟨.UpdateBinary (value.drop 5), p1, p2⟩)
    else none

/-- `impl TryFrom<PcscCommand> for Vec<u8>` (encode). The source binds
`let ins = value.ins_code();` and uses it in the `GetData | ReadBinary`
arm; the `LoadKeys | Verify | UpdateBinary` or-pattern arm hard-codes the
byte `0x82` (the three variants share one arm in the source, written here
as three arms with the same body), and the `GeneralAuthenticate` arm
hard-codes `0x86`. `address.to_be_bytes()` for a `u16` is
`[address / 256 % 256, address % 256]`. -/
def PcscCommand.toBytes (value : PcscCommand) : Except PcscCodecError (List Nat) :=
  let ins := value.ins_code
  match value.ins with
  | .GetData le => .ok [0xFF, ins, value.p1, value.p2, le]
  | .ReadBinary le => .ok [0xFF, ins, value.p1, value.p2, le]
  | .LoadKeys data =>
      if data.length > 255 then .error .TooLong
      else .ok ([0xFF, 0x82, value.p1, value.p2, data.length] ++ data)
  | .Verify data =>
      if data.length > 255 then .error .TooLong
      else .ok ([0xFF, 0x82, value.p1, value.p2, data.length] ++ data)
  | .UpdateBinary data =>
      if data.length > 255 then .error .TooLong
      else .ok ([0xFF, 0x82, value.p1, value.p2, data.length] ++ data)
  | .GeneralAuthenticate address key_type key_id =>
      .ok [0xFF, 0x86, value.p1, value.p2, 5, 1,
           address / 256 % 256, address % 256, key_type.toByte, key_id]

/-- `PcscStatusWords` from `src/command.rs`. -/
inductive PcscStatusWords where
  | Warning (sw2 : Nat)
  | AllowedRetries (sw2 : Nat)
  | MemoryFailure (sw2 : Nat)
  | WrongLength
  | WrongClassByte
  | CommandImpossible (sw2 : Nat)
  | CommandError (sw2 : Nat)
  | WrongParameter
  | WrongLengthLe (sw2 : Nat)
  | Success
  | Unknown (sw1 : Nat) (sw2 : Nat)
deriving DecidableEq, Repr

/-- `PcscErrorCodeInfo` from `src/command.rs`. -/
inductive PcscErrorCodeInfo where
  | ResponseCorrupted
  | UnexpectedEndOfData
  | AddressDoesNotExit
  | WritingFailed
  | CommandIncompatible
  | CardKeyNotSupported
  | ReaderKeyNotSupported
  | PlainTransmissionNotSupported
  | SecuredTransmissionNotSupported
  | VolatileMemoryUnavailable
  | NonVolatileMemoryUnavailable
  | KeyNumberNotValid
  | KeyLengthIncorrect
  | SecurityStatusUnsatisfied
  | ReferenceKeyUnusable
  | UnknownKeyType
  | CommandNotAllowed
  | FunctionNotSupported
  | FileNotFound
  | ReferenceDataNotFound
deriving DecidableEq, Repr

/-- `PcscStatusWords::extra_info`. Each Rust `match` arm on byte literals
becomes one `if` test, in source order. -/
def PcscStatusWords.extra_info (self : PcscStatusWords) (ins : Nat) : Option PcscErrorCodeInfo :=
  match self with
  | .Warning sw2 =>
      if sw2 = 0x81 then some .ResponseCorrupted
      else if sw2 = 0x82 then some .UnexpectedEndOfData
      else none
  | .MemoryFailure sw2 =>
      if ins = 0xCA ∧ sw2 = 0x81 then some .AddressDoesNotExit
      else if ins = 0x86 ∧ sw2 = 0x81 then some .AddressDoesNotExit
      else if ins = 0x20 ∧ sw2 = 0x81 then some .WritingFailed
      else if ins = 0xD6 ∧ sw2 = 0x81 then some .WritingFailed
      else none
  | .CommandImpossible sw2 =>
      if ins = 0x82 ∧ sw2 = 0x82 then some .CardKeyNotSupported
      else if ins = 0x82 ∧ sw2 = 0x83 then some .ReaderKeyNotSupported
      else if ins = 0x82 ∧ sw2 = 0x84 then some .PlainTransmissionNotSupported
      else if ins = 0x82 ∧ sw2 = 0x85 then some .SecuredTransmissionNotSupported
      else if ins = 0x82 ∧ sw2 = 0x86 then some .VolatileMemoryUnavailable
      else if ins = 0x82 ∧ sw2 = 0x87 then some .NonVolatileMemoryUnavailable
      else if ins = 0x82 ∧ sw2 = 0x88 then some .KeyNumberNotValid
      else if ins = 0x82 ∧ sw2 = 0x89 then some .KeyLengthIncorrect
      else if ins = 0x86 ∧ sw2 = 0x82 then some .SecurityStatusUnsatisfied
      else if ins = 0x86 ∧ sw2 = 0x83 then some .CommandNotAllowed
      else if ins = 0x86 ∧ sw2 = 0x84 then some .ReferenceKeyUnusable
      else if ins = 0x86 ∧ sw2 = 0x86 then some .UnknownKeyType
      else if ins = 0x86 ∧ sw2 = 0x88 then some .KeyNumberNotValid
      else if ins = 0x20 ∧ sw2 = 0x82 then some .SecurityStatusUnsatisfied
      else if ins = 0x20 ∧ sw2 = 0x83 then some .CommandNotAllowed
      else if ins = 0x20 ∧ sw2 = 0x84 then some .ReferenceKeyUnusable
      else if ins = 0xB0 ∧ sw2 = 0x81 then some .CommandIncompatible
      else if ins = 0xB0 ∧ sw2 = 0x82 then some .SecurityStatusUnsatisfied
      else if ins = 0xB0 ∧ sw2 = 0x86 then some .CommandNotAllowed
      else if ins = 0xD6 ∧ sw2 = 0x81 then some .CommandIncompatible
      else if ins = 0xD6 ∧ sw2 = 0x82 then some .SecurityStatusUnsatisfied
      else if ins = 0xD6 ∧ sw2 = 0x86 then some .CommandNotAllowed
      else none
  | .CommandError sw2 =>
      if sw2 = 0x81 then some .FunctionNotSupported
      else if sw2 = 0x82 then some .FileNotFound
      else if sw2 = 0x88 then some .ReferenceDataNotFound
      else none
  | .AllowedRetries _ => none
  | .WrongLength => none
  | .WrongClassByte => none
  | .WrongParameter => none
  | .WrongLengthLe _ => none
  | .Success => none
  | .Unknown _ _ => none

/-- `PcscResponse` from `src/command.rs`. -/
structure PcscResponse where
  data : List Nat
  sw : PcscStatusWords
deriving DecidableEq, Repr

/-- `PcscResponse::MIN_LENGTH`. -/
def PcscResponse.MIN_LENGTH : Nat := 2

/-- `PcscResponse::MAX_LENGTH` (`2 + u8::MAX`). -/
def PcscResponse.MAX_LENGTH : Nat := 2 + 255

/-- The status-word switch on `value[eod]` inside
`impl TryFrom<&[u8]> for PcscResponse`, extracted as a definition so that
theorems can name it. -/
def decodeStatusWord (sw1 sw2 : Nat) : PcscStatusWords :=
  if sw1 = 0x62 then .Warning sw2
  else if sw1 = 0x63 then .AllowedRetries sw2
  else if sw1 = 0x65 then .MemoryFailure sw2
  else if sw1 = 0x67 then .WrongLength
  else if sw1 = 0x68 then .WrongClassByte
  else if sw1 = 0x69 then .CommandImpossible sw2
  else if sw1 = 0x6A then .CommandError sw2
  else if sw1 = 0x6B then .WrongParameter
  else if sw1 = 0x6C then .WrongLengthLe sw2
  else if sw1 = 0x90 then .Success
  else .Unknown sw1 sw2

/-- `impl TryFrom<&[u8]> for PcscResponse` (decode). The source matches on
the length: `0 | 1` gives `TooShort`, `MIN_LENGTH` gives `(vec![], 0)`,
and `len` gives `(value[0..len-2], len-2)`; at length 2 the general
formula `(value.take (len - 2), len - 2)` agrees with the `MIN_LENGTH`
arm, so both arms are written as one here. -/
def PcscResponse.tryFrom (value : List Nat) : Except PcscCodecError PcscResponse :=
  if value.length < 2 then .error .TooShort
  else
    let eod := value.length - 2
    .ok ⟨value.take eod, decodeStatusWord (value.getD eod 0) (value.getD (eod + 1) 0)⟩

/-- `impl From<PcscResponse> for Vec<u8>` (encode). -/
def PcscResponse.toBytes (value : PcscResponse) : List Nat :=
  value.data ++
    match value.sw with
    | .Warning sw2 => [0x62, sw2]
    | .AllowedRetries sw2 => [0x63, sw2]
    | .MemoryFailure sw2 => [0x65, sw2]
    | .WrongLength => [0x67, 0x00]
    | .WrongClassByte => [0x68, 0x00]
    | .CommandImpossible sw2 => [0x69, sw2]
    | .CommandError sw2 => [0x6A, sw2]
    | .WrongParameter => [0x6B, 0x00]
    | .WrongLengthLe sw2 => [0x6C, sw2]
    | .Success => [0x90, 0x00]
    | .Unknown sw1 sw2 => [sw1, sw2]

/-- `STORAGE_CARD_RID` from `src/atr.rs`. -/
def STORAGE_CARD_RID : List Nat := [0xA0, 0x00, 0x00, 0x03, 0x06]

/-- `TagType` from `src/atr.rs`. -/
inductive TagType where
  | StorageCard
  | Iso14443_4
deriving DecidableEq, Repr

/-- `Standard` from `src/atr.rs`. -/
inductive Standard where
  | NoInformation
  | Iso14443APart1
  | Iso14443APart2
  | Iso14443APart3
  | Iso14443BPart1
  | Iso14443BPart2
  | Iso14443BPart3
  | Iso15693Part1
  | Iso15693Part2
  | Iso15693Part3
  | Iso15693Part4
  | Iso7816_10I2c
  | Iso7816_10I2cExtended
  | Iso7816_10_2Wbp
  | Iso7816_10_3Wbp
  | FeliCa
  | LowFrequencyContactless
deriving DecidableEq, Repr

/-- `impl TryFrom<u8> for Standard`, with the `Err(Unknown)` fall-through
rendered as `none`. -/
def Standard.tryFrom (value : Nat) : Option Standard :=
  if value = 0x00 then some .NoInformation
  else if value = 0x01 then some .Iso14443APart1
  else if value = 0x02 then some .Iso14443APart2
  else if value = 0x03 then some .Iso14443APart3
  else if value = 0x05 then some .Iso14443BPart1
  else if value = 0x06 then some .Iso14443BPart2
  else if value = 0x07 then some .Iso14443BPart3
  else if value = 0x09 then some .Iso15693Part1
  else if value = 0x0A then some .Iso15693Part2
  else if value = 0x0B then some .Iso15693Part3
  else if value = 0x0C then some .Iso15693Part4
  else if value = 0x0D then some .Iso7816_10I2c
  else if value = 0x0E then some .Iso7816_10I2cExtended
  else if value = 0x0F then some .Iso7816_10_2Wbp
  else if value = 0x10 then some .Iso7816_10_3Wbp
  else if value = 0x11 then some .FeliCa
  else if value = 0x40 then some .LowFrequencyContactless
  else none

/-- `CardName` from `src/atr.rs`. -/
inductive CardName where
  | NoInformation
  | MifareStandard1K
  | MifareStandard4K
  | MifareUltraLight
  | Sle55R
  | Sr176
  | SriX4K
  | At88Rr020
  | At88Sc0204Crf
  | At88Sc0808Crf
  | At88Sc1616Crf
  | At88Sc3216Crf
  | At88Sc6416Crf
  | Srf55V10P
  | Srf55V02P
  | Srf55V10S
  | Srf55V02S
  | TagIt
  | Lri512
  | ICodeSli
  | TempSens
  | ICode1
  | PicoPass2K
  | PicoPass2KS
  | PicoPass16K
  | PicoPass16Ks
  | PicoPass16K8x2
  | PicoPass16Ks8x2
  | PicoPass32Ks16plus16
  | PicoPass32Ks16plus8x2
  | PicoPass32Ks8x2plus16
  | PicoPass32Ks8x2plus8x2
  | Lri64
  | ICodeUid
  | ICodeEpc
  | Lri12
  | Lri128
  | MifareMini
  | MyDMove
  | MyDNfc
  | MyDProximity2
  | MyDProximityEnhanced
  | MyDLight
  | PjmStackTag
  | PjmItemTag
  | PjmLight
  | JewelTag
  | TopazNfcTag
  | At88Sc0104Crf
  | At88Sc0404Crf
  | At88Rf01C
  | At88Rf04C
  | ICodeSl2
  | MifarePlusSl1_2K
  | MifarePlusSl1_4K
  | MifarePlusSl2_2K
  | MifarePlusSl2_4K
  | MifareUltralightC
  | FeliCa
  | MelexisSensorTag
  | MifareUltralightEv1
deriving DecidableEq, Repr

/-- `impl TryFrom<u16> for CardName`, with the `Err(Unknown)` fall-through
rendered as `none`. -/
def CardName.tryFrom (value : Nat) : Option CardName :=
  if value = 0x00 then some .NoInformation
  else if value = 0x01 then some .MifareStandard1K
  else if value = 0x02 then some .MifareStandard4K
  else if value = 0x03 then some .MifareUltraLight
  else if value = 0x04 then some .Sle55R
  else if value = 0x06 then some .Sr176
  else if value = 0x07 then some .SriX4K
  else if value = 0x08 then some .At88Rr020
  else if value = 0x09 then some .At88Sc0204Crf
  else if value = 0x0A then some .At88Sc0808Crf
  else if value = 0x0B then some .At88Sc1616Crf
  else if value = 0x0C then some .At88Sc3216Crf
  else if value = 0x0D then some .At88Sc6416Crf
  else if value = 0x0E then some .Srf55V10P
  else if value = 0x0F then some .Srf55V02P
  else if value = 0x10 then some .Srf55V10S
  else if value = 0x11 then some .Srf55V02S
  else if value = 0x12 then some .TagIt
  else if value = 0x13 then some .Lri512
  else if value = 0x14 then some .ICodeSli
  else if value = 0x15 then some .TempSens
  else if value = 0x16 then some .ICode1
  else if value = 0x17 then some .PicoPass2K
  else if value = 0x18 then some .PicoPass2KS
  else if value = 0x19 then some .PicoPass16K
  else if value = 0x1A then some .PicoPass16Ks
  else if value = 0x1B then some .PicoPass16K8x2
  else if value = 0x1C then some .PicoPass16Ks8x2
  else if value = 0x1D then some .PicoPass32Ks16plus16
  else if value = 0x1E then some .PicoPass32Ks16plus8x2
  else if value = 0x1F then some .PicoPass32Ks8x2plus16
  else if value = 0x20 then some .PicoPass32Ks8x2plus8x2
  else if value = 0x21 then some .Lri64
  else if value = 0x22 then some .ICodeUid
  else if value = 0x23 then some .ICodeEpc
  else if value = 0x24 then some .Lri12
  else if value = 0x25 then some .Lri128
  else if value = 0x26 then some .MifareMini
  else if value = 0x27 then some .MyDMove
  else if value = 0x28 then some .MyDNfc
  else if value = 0x29 then some .MyDProximity2
  else if value = 0x2A then some .MyDProximityEnhanced
  else if value = 0x2B then some .MyDLight
  else if value = 0x2C then some .PjmStackTag
  else if value = 0x2D then some .PjmItemTag
  else if value = 0x2E then some .PjmLight
  else if value = 0x2F then some .JewelTag
  else if value = 0x30 then some .TopazNfcTag
  else if value = 0x31 then some .At88Sc0104Crf
  else if value = 0x32 then some .At88Sc0404Crf
  else if value = 0x33 then some .At88Rf01C
  else if value = 0x34 then some .At88Rf04C
  else if value = 0x35 then some .ICodeSl2
  else if value = 0x36 then some .MifarePlusSl1_2K
  else if value = 0x37 then some .MifarePlusSl1_4K
  else if value = 0x38 then some .MifarePlusSl2_2K
  else if value = 0x39 then some .MifarePlusSl2_4K
  else if value = 0x3A then some .MifareUltralightC
  else if value = 0x3B then some .FeliCa
  else if value = 0x3C then some .MelexisSensorTag
  else if value = 0x3D then some .MifareUltralightEv1
  else none

/-- Rust `slice::get(a..b)`: `Some` of the sub-slice when the range is in
bounds, `None` otherwise (all call sites in `parse_atr` have `a ≤ b`). -/
def sliceGet (l : List Nat) (a b : Nat) : Option (List Nat) :=
  if b ≤ l.length then some ((l.drop a).take (b - a)) else none

/-- `u16::from_be_bytes(bytes.try_into() ...)`: the conversion to `[u8; 2]`
succeeds exactly on a two-element slice; `none` is the `Err` case, whose
`unwrap()` in the source panics. -/
def u16_from_be_bytes (bytes : List Nat) : Option Nat :=
  match bytes with
  | [hi, lo] => some (256 * hi + lo)
  | _ => none

/-- `parse_atr` from `src/atr.rs`. The outer `Option` models a Rust panic
(`none`): the source computes
`atr.get(14..15).map(|bytes| u16::from_be_bytes(bytes.try_into().unwrap()))`,
and `atr.get(14..15)` is a one-byte slice, so the `try_into` to `[u8; 2]`
can never succeed and the `unwrap()` panics whenever that `map` runs. -/
def parse_atr (atr : List Nat) :
    Option (Option TagType × Option Standard × Option CardName) :=
  match sliceGet atr 0 5 with
  | some [0x3B, len1, 0x80, 0x01, 0x80] =>
      match len1, atr[5]? with
      | _, some 0x4F =>
          if sliceGet atr 7 12 = some STORAGE_CARD_RID then
            let standard := (atr[13]?).bind fun ss => Standard.tryFrom ss
            match sliceGet atr 14 15 with
            | some bytes =>
                match u16_from_be_bytes bytes with
                | some nn => some (some .StorageCard, standard, CardName.tryFrom nn)
                | none => none
            | none => some (some .StorageCard, standard, none)
          else some (some .StorageCard, none, none)
      | 0x81, some 0x80 => some (some .StorageCard, none, none)
      | _, _ => some (none, none, none)
  | some [0x3B, _, 0x80, 0x01, _] => some (some .Iso14443_4, none, none)
  | _ => some (none, none, none)

/-- The image of a command under decode-after-encode, as the code actually
behaves: `Verify` and `UpdateBinary` come back as `LoadKeys` (the encoder
hard-codes instruction byte `0x82` for all three variable-payload
variants), a `GeneralAuthenticate` address is truncated to 16 bits, and a
key type is replaced by the decoding of its wire byte (which maps `0x60`
and `0x61` to the named variants). -/
def cmdCanon : PcscCommand → PcscCommand
  | ⟨.Verify d, p1, p2⟩ => ⟨.LoadKeys d, p1, p2⟩
  | ⟨.UpdateBinary d, p1, p2⟩ => ⟨.LoadKeys d, p1, p2⟩
  | ⟨.GeneralAuthenticate a kt kid, p1, p2⟩ =>
      ⟨.GeneralAuthenticate (a % 65536) (KeyType.fromByte kt.toByte) kid, p1, p2⟩
  | c => c

/-- `true` exactly on an `Unknown` status whose `sw1` is one of the ten
SW1 codes that the response decoder recognizes, so that re-encoding it
produces bytes that decode to a different (named) status. -/
def PcscStatusWords.collides : PcscStatusWords → Bool
  | .Unknown sw1 _ =>
      sw1 == 0x62 || sw1 == 0x63 || sw1 == 0x65 || sw1 == 0x67 || sw1 == 0x68 ||
      sw1 == 0x69 || sw1 == 0x6A || sw1 == 0x6B || sw1 == 0x6C || sw1 == 0x90
  | _ => false

theorem KeyType.toByte_fromByte_toByte (kt : KeyType) :
    (KeyType.fromByte kt.toByte).toByte = kt.toByte := by
  cases kt with
  | Unknown o =>
      by_cases h60 : o = 0x60
      · simp [KeyType.toByte, KeyType.fromByte, h60]
      · by_cases h61 : o = 0x61 <;>
          simp [KeyType.toByte, KeyType.fromByte, h60, h61]
  | MifareA => rfl
  | MifareB => rfl

/-- C2 (code_bug evidence): the encoder emits instruction byte `0x82` for
`Verify` and `UpdateBinary`, while the code's own `ins_code` gives `0x20`
and `0xD6` for those variants, so byte 1 of the encoding is not the
variant's instruction code. -/
theorem C2_encode_ins_byte_bug :
    PcscCommand.ins_code ⟨.Verify [1, 2, 3], 0, 0⟩ = 0x20 ∧
    PcscCommand.toBytes ⟨.Verify [1, 2, 3], 0, 0⟩ =
      Except.ok [0xFF, 0x82, 0x00, 0x00, 0x03, 1, 2, 3] ∧
    PcscCommand.ins_code ⟨.UpdateBinary [9], 0, 0⟩ = 0xD6 ∧
    PcscCommand.toBytes ⟨.UpdateBinary [9], 0, 0⟩ =
      Except.ok [0xFF, 0x82, 0x00, 0x00, 0x01, 9] := by
  decide

/-- C3 (code_bug evidence): on the fixture ATR the storage-card branch is
taken and the card-model computation panics (`none`), because the source
slices one byte (`14..15`) and unwraps a conversion to a two-byte array;
the same ATR truncated to 14 bytes shows the branch otherwise works,
returning family `StorageCard` and the standard decoded from byte 13. -/
theorem C3_parse_atr_fixture :
    parse_atr [0x3B, 0x20, 0x80, 0x01, 0x80, 0x4F, 0x00, 0xA0,
               0x00, 0x00, 0x03, 0x06, 0x00, 0x01, 0x00, 0x01] = none ∧
    parse_atr [0x3B, 0x20, 0x80, 0x01, 0x80, 0x4F, 0x00, 0xA0,
               0x00, 0x00, 0x03, 0x06, 0x00, 0x01] =
      some (some TagType.StorageCard, some Standard.Iso14443APart1, none) := by
  decide

/-- C1 (counterexample): `decode(encode(c)) = c` fails as stated: a
`Verify` command encodes to the same bytes as a `LoadKeys` command and
decodes back as `LoadKeys`; likewise `UpdateBinary`; and a
`GeneralAuthenticate` whose key type is `Unknown 0x60` decodes back with
key type `MifareA`. -/
theorem C1_counterexample :
    PcscCommand.toBytes ⟨.Verify [], 0, 0⟩ = Except.ok [0xFF, 0x82, 0x00, 0x00, 0x00] ∧
    PcscCommand.tryFrom [0xFF, 0x82, 0x00, 0x00, 0x00] =
      some (Except.ok ⟨.LoadKeys [], 0, 0⟩) ∧
    (⟨.LoadKeys [], 0, 0⟩ : PcscCommand) ≠ ⟨.Verify [], 0, 0⟩ ∧
    PcscCommand.toBytes ⟨.UpdateBinary [], 0, 0⟩ = Except.ok [0xFF, 0x82, 0x00, 0x00, 0x00] ∧
    (⟨.LoadKeys [], 0, 0⟩ : PcscCommand) ≠ ⟨.UpdateBinary [], 0, 0⟩ ∧
    PcscCommand.toBytes ⟨.GeneralAuthenticate 0 (.Unknown 0x60) 0, 0, 0⟩ =
      Except.ok [0xFF, 0x86, 0x00, 0x00, 0x05, 0x01, 0x00, 0x00, 0x60, 0x00] ∧
    PcscCommand.tryFrom [0xFF, 0x86, 0x00, 0x00, 0x05, 0x01, 0x00, 0x00, 0x60, 0x00] =
      some (Except.ok ⟨.GeneralAuthenticate 0 .MifareA 0, 0, 0⟩) ∧
    (⟨.GeneralAuthenticate 0 .MifareA 0, 0, 0⟩ : PcscCommand) ≠
      ⟨.GeneralAuthenticate 0 (.Unknown 0x60) 0, 0, 0⟩ := by
  decide

/-- C4 (counterexample): an `Unknown` status whose SW1 equals a recognized
code does not survive the round trip: `Unknown 0x90 0x00` re-encodes to
`[0x90, 0x00]`, which decodes to `Success`. -/
theorem C4_counterexample :
    PcscResponse.toBytes ⟨[], .Unknown 0x90 0x00⟩ = [0x90, 0x00] ∧
    PcscResponse.tryFrom [0x90, 0x00] = Except.ok ⟨[], .Success⟩ ∧
    PcscStatusWords.Unknown 0x90 0x00 ≠ PcscStatusWords.Success := by
  decide

/-- C7 (counterexample): a five-byte frame with class `0xFF` and the
known instruction code `0x86` is not decoded without error — the decoder
indexes bytes 6 to 9 and panics (modelled as `none`). -/
theorem C7_counterexample :
    PcscCommand.tryFrom [0xFF, 0x86, 0x00, 0x00, 0x05] = none := by
  decide

/-- C10 (counterexample): the diagnostic lookup for `MemoryFailure` is
keyed by the originating instruction, not by `(family, SW2)` alone:
`MemoryFailure 0x81` yields different diagnostics under instructions
`0xCA` and `0x20`, and none under `0x00`. -/
theorem C10_counterexample :
    PcscStatusWords.extra_info (.MemoryFailure 0x81) 0xCA = some .AddressDoesNotExit ∧
    PcscStatusWords.extra_info (.MemoryFailure 0x81) 0x20 = some .WritingFailed ∧
    PcscStatusWords.extra_info (.MemoryFailure 0x81) 0x00 = none ∧
    PcscErrorCodeInfo.AddressDoesNotExit ≠ PcscErrorCodeInfo.WritingFailed := by
  decide

/-- C1 (amended): for every command whose encode succeeds with bytes `b`,
decoding `b` yields exactly `cmdCanon c`, so `decode(encode(c)) = c` holds
precisely for the commands fixed by `cmdCanon` (GetData, ReadBinary,
LoadKeys, and GeneralAuthenticate with a 16-bit address and a canonical
key type), while Verify and UpdateBinary decode back as LoadKeys with the
same payload and parameters; and re-encoding the decoded command
reproduces `b`, so `encode(decode(b)) = b` for every byte sequence
produced by a successful encode. -/
theorem C1_command_codec (c : PcscCommand) (b : List Nat)
    (h : c.toBytes = Except.ok b) :
    PcscCommand.tryFrom b = some (Except.ok (cmdCanon c)) ∧
    (cmdCanon c).toBytes = Except.ok b := by
  obtain ⟨ins, p1, p2⟩ := c
  cases ins with
  | GetData le =>
      simp only [PcscCommand.toBytes, PcscCommand.ins_code, Except.ok.injEq] at h
      subst h
      refine ⟨?_, rfl⟩
      simp [PcscCommand.tryFrom, cmdCanon, PcscCommand.MIN_LENGTH, PcscCommand.MAX_LENGTH,
        List.getD]
  | ReadBinary le =>
      simp only [PcscCommand.toBytes, PcscCommand.ins_code, Except.ok.injEq] at h
      subst h
      refine ⟨?_, rfl⟩
      simp [PcscCommand.tryFrom, cmdCanon, PcscCommand.MIN_LENGTH, PcscCommand.MAX_LENGTH,
        List.getD]
  | LoadKeys data =>
      rcases Nat.lt_or_ge 255 data.length with hl | hl
      · simp [PcscCommand.toBytes, hl] at h
      · rw [PcscCommand.toBytes] at h
        simp only [if_neg (Nat.not_lt.mpr hl), Except.ok.injEq] at h
        subst h
        refine ⟨?_, ?_⟩
        · show PcscCommand.tryFrom
            (255 :: 130 :: p1 :: p2 :: data.length :: data) = _
          rw [PcscCommand.tryFrom]
          have hlen : (255 :: 130 :: p1 :: p2 :: data.length :: data).length
              = 5 + data.length := by simp; omega
          rw [if_neg (by rw [hlen]; simp [PcscCommand.MIN_LENGTH])]
          rw [if_neg (by rw [hlen]; simp [PcscCommand.MAX_LENGTH]; omega)]
          simp [List.getD, cmdCanon]
        · rw [PcscCommand.toBytes]
          simp [if_neg (Nat.not_lt.mpr hl), cmdCanon]
  | GeneralAuthenticate address kt kid =>
      simp only [PcscCommand.toBytes, Except.ok.injEq] at h
      subst h
      refine ⟨?_, ?_⟩
      · rw [PcscCommand.tryFrom]
        rw [if_neg (by simp [PcscCommand.MIN_LENGTH])]
        rw [if_neg (by simp [PcscCommand.MAX_LENGTH])]
        simp only [List.getD, List.getElem?_cons_zero, List.getElem?_cons_succ]
        simp [cmdCanon]
        omega
      · rw [PcscCommand.toBytes]
        simp only [cmdCanon]
        simp [KeyType.toByte_fromByte_toByte]
        omega
  | Verify data =>
      rcases Nat.lt_or_ge 255 data.length with hl | hl
      · simp [PcscCommand.toBytes, hl] at h
      · rw [PcscCommand.toBytes] at h
        simp only [if_neg (Nat.not_lt.mpr hl), Except.ok.injEq] at h
        subst h
        refine ⟨?_, ?_⟩
        · show PcscCommand.tryFrom
            (255 :: 130 :: p1 :: p2 :: data.length :: data) = _
          rw [PcscCommand.tryFrom]
          have hlen : (255 :: 130 :: p1 :: p2 :: data.length :: data).length
              = 5 + data.length := by simp; omega
          rw [if_neg (by rw [hlen]; simp [PcscCommand.MIN_LENGTH])]
          rw [if_neg (by rw [hlen]; simp [PcscCommand.MAX_LENGTH]; omega)]
          simp [List.getD, cmdCanon]
        · rw [PcscCommand.toBytes]
          simp [if_neg (Nat.not_lt.mpr hl), cmdCanon]
  | UpdateBinary data =>
      rcases Nat.lt_or_ge 255 data.length with hl | hl
      · simp [PcscCommand.toBytes, hl] at h
      · rw [PcscCommand.toBytes] at h
        simp only [if_neg (Nat.not_lt.mpr hl), Except.ok.injEq] at h
        subst h
        refine ⟨?_, ?_⟩
        · show PcscCommand.tryFrom
            (255 :: 130 :: p1 :: p2 :: data.length :: data) = _
          rw [PcscCommand.tryFrom]
          have hlen : (255 :: 130 :: p1 :: p2 :: data.length :: data).length
              = 5 + data.length := by simp; omega
          rw [if_neg (by rw [hlen]; simp [PcscCommand.MIN_LENGTH])]
          rw [if_neg (by rw [hlen]; simp [PcscCommand.MAX_LENGTH]; omega)]
          simp [List.getD, cmdCanon]
        · rw [PcscCommand.toBytes]
          simp [if_neg (Nat.not_lt.mpr hl), cmdCanon]

/-- C1 witness: the round-trip theorem applied to `GetData` with `le = 0`. -/
theorem C1_witness :
    PcscCommand.tryFrom [0xFF, 0xCA, 0x00, 0x00, 0x00] =
      some (Except.ok (cmdCanon ⟨.GetData 0, 0, 0⟩)) ∧
    (cmdCanon ⟨.GetData 0, 0, 0⟩).toBytes = Except.ok [0xFF, 0xCA, 0x00, 0x00, 0x00] :=
  C1_command_codec ⟨.GetData 0, 0, 0⟩ [0xFF, 0xCA, 0x00, 0x00, 0x00] (by decide)

theorem response_tryFrom_append (data : List Nat) (x y : Nat) :
    PcscResponse.tryFrom (data ++ [x, y]) =
      Except.ok ⟨data, decodeStatusWord x y⟩ := by
  have hlen : (data ++ [x, y]).length = data.length + 2 := by simp
  rw [PcscResponse.tryFrom, if_neg (by omega)]
  have e2 : (data ++ [x, y]).length - 2 = data.length := by omega
  rw [e2]
  have t1 : (data ++ [x, y]).take data.length = data := List.take_left data [x, y]
  have g1 : (data ++ [x, y]).getD data.length 0 = x := by
    rw [List.getD_append_right data [x, y] 0 data.length (Nat.le_refl _)]
    simp
  have g2 : (data ++ [x, y]).getD (data.length + 1) 0 = y := by
    rw [List.getD_append_right data [x, y] 0 (data.length + 1) (by omega)]
    simp
  simp only [t1, g1, g2]

/-- C4 (amended): `decode(encode(r)) = r` for every response whose status
does not collide with a decodable status word — that is, for every status
except `Unknown {sw1, sw2}` with `sw1` one of the ten recognized SW1
codes; in particular the sub-code-less families (WrongLength,
WrongClassByte, WrongParameter, Success) re-encode SW2 as 0x00 and still
round-trip, since they carry no SW2 in the value. -/
theorem C4_response_round_trip (r : PcscResponse) (h : r.sw.collides = false) :
    PcscResponse.tryFrom r.toBytes = Except.ok r := by
  obtain ⟨data, sw⟩ := r
  cases sw with
  | Warning sw2 =>
      show PcscResponse.tryFrom (data ++ [0x62, sw2]) = _
      rw [response_tryFrom_append]
      simp [decodeStatusWord]
  | AllowedRetries sw2 =>
      show PcscResponse.tryFrom (data ++ [0x63, sw2]) = _
      rw [response_tryFrom_append]
      simp [decodeStatusWord]
  | MemoryFailure sw2 =>
      show PcscResponse.tryFrom (data ++ [0x65, sw2]) = _
      rw [response_tryFrom_append]
      simp [decodeStatusWord]
  | WrongLength =>
      show PcscResponse.tryFrom (data ++ [0x67, 0x00]) = _
      rw [response_tryFrom_append]
      simp [decodeStatusWord]
  | WrongClassByte =>
      show PcscResponse.tryFrom (data ++ [0x68, 0x00]) = _
      rw [response_tryFrom_append]
      simp [decodeStatusWord]
  | CommandImpossible sw2 =>
      show PcscResponse.tryFrom (data ++ [0x69, sw2]) = _
      rw [response_tryFrom_append]
      simp [decodeStatusWord]
  | CommandError sw2 =>
      show PcscResponse.tryFrom (data ++ [0x6A, sw2]) = _
      rw [response_tryFrom_append]
      simp [decodeStatusWord]
  | WrongParameter =>
      show PcscResponse.tryFrom (data ++ [0x6B, 0x00]) = _
      rw [response_tryFrom_append]
      simp [decodeStatusWord]
  | WrongLengthLe sw2 =>
      show PcscResponse.tryFrom (data ++ [0x6C, sw2]) = _
      rw [response_tryFrom_append]
      simp [decodeStatusWord]
  | Success =>
      show PcscResponse.tryFrom (data ++ [0x90, 0x00]) = _
      rw [response_tryFrom_append]
      simp [decodeStatusWord]
  | Unknown sw1 sw2 =>
      simp only [PcscStatusWords.collides, Bool.or_eq_false_iff, beq_eq_false_iff_ne,
        ne_eq] at h
      obtain ⟨⟨⟨⟨⟨⟨⟨⟨⟨h1, h2⟩, h3⟩, h4⟩, h5⟩, h6⟩, h7⟩, h8⟩, h9⟩, h10⟩ := h
      show PcscResponse.tryFrom (data ++ [sw1, sw2]) = _
      rw [response_tryFrom_append]
      simp [decodeStatusWord, h1, h2, h3, h4, h5, h6, h7, h8, h9, h10]

/-- C4 witness: the round-trip theorem applied to the response with
payload `[1, 2]` and status `CommandError 0x82`. -/
theorem C4_witness :
    PcscResponse.tryFrom (PcscResponse.toBytes ⟨[1, 2], .CommandError 0x82⟩) =
      Except.ok ⟨[1, 2], .CommandError 0x82⟩ :=
  C4_response_round_trip ⟨[1, 2], .CommandError 0x82⟩ (by decide)


/-- C5 (confirmed): response decode fails with TooShort on inputs shorter
than 2 bytes; otherwise it returns the payload `bytes[0 .. len-2]` (whose
length plus 2 is the input length) and the status obtained from the
trailing two bytes by the SW1 switch, which maps 0x62 to Warning, 0x63 to
AllowedRetries, 0x65 to MemoryFailure, 0x67 to WrongLength, 0x68 to
WrongClassByte, 0x69 to CommandImpossible, 0x6A to CommandError, 0x6B to
WrongParameter, 0x6C to WrongLengthLe, 0x90 to Success (ignoring SW2),
and any other SW1 to Unknown. -/
theorem C5_response_decode_post (value : List Nat) :
    (value.length < 2 → PcscResponse.tryFrom value = Except.error PcscCodecError.TooShort) ∧
    (2 ≤ value.length →
      PcscResponse.tryFrom value =
        Except.ok ⟨value.take (value.length - 2),
          decodeStatusWord (value.getD (value.length - 2) 0)
            (value.getD (value.length - 1) 0)⟩ ∧
      (value.take (value.length - 2)).length + 2 = value.length) ∧
    (∀ sw2, decodeStatusWord 0x62 sw2 = PcscStatusWords.Warning sw2) ∧
    (∀ sw2, decodeStatusWord 0x63 sw2 = PcscStatusWords.AllowedRetries sw2) ∧
    (∀ sw2, decodeStatusWord 0x65 sw2 = PcscStatusWords.MemoryFailure sw2) ∧
    (∀ sw2, decodeStatusWord 0x67 sw2 = PcscStatusWords.WrongLength) ∧
    (∀ sw2, decodeStatusWord 0x68 sw2 = PcscStatusWords.WrongClassByte) ∧
    (∀ sw2, decodeStatusWord 0x69 sw2 = PcscStatusWords.CommandImpossible sw2) ∧
    (∀ sw2, decodeStatusWord 0x6A sw2 = PcscStatusWords.CommandError sw2) ∧
    (∀ sw2, decodeStatusWord 0x6B sw2 = PcscStatusWords.WrongParameter) ∧
    (∀ sw2, decodeStatusWord 0x6C sw2 = PcscStatusWords.WrongLengthLe sw2) ∧
    (∀ sw2, decodeStatusWord 0x90 sw2 = PcscStatusWords.Success) ∧
    (∀ sw1 sw2, sw1 ≠ 0x62 → sw1 ≠ 0x63 → sw1 ≠ 0x65 → sw1 ≠ 0x67 → sw1 ≠ 0x68 →
      sw1 ≠ 0x69 → sw1 ≠ 0x6A → sw1 ≠ 0x6B → sw1 ≠ 0x6C → sw1 ≠ 0x90 →
      decodeStatusWord sw1 sw2 = PcscStatusWords.Unknown sw1 sw2) := by
  refine ⟨?_, ?_, ?_, ?_, ?_, ?_, ?_, ?_, ?_, ?_, ?_, ?_, ?_⟩
  · intro h
    rw [PcscResponse.tryFrom, if_pos h]
  · intro h
    constructor
    · rw [PcscResponse.tryFrom, if_neg (Nat.not_lt.mpr h)]
      have e : value.length - 2 + 1 = value.length - 1 := by omega
      simp only [e]
    · simp only [List.length_take]
      omega
  · intro sw2; simp [decodeStatusWord]
  · intro sw2; simp [decodeStatusWord]
  · intro sw2; simp [decodeStatusWord]
  · intro sw2; simp [decodeStatusWord]
  · intro sw2; simp [decodeStatusWord]
  · intro sw2; simp [decodeStatusWord]
  · intro sw2; simp [decodeStatusWord]
  · intro sw2; simp [decodeStatusWord]
  · intro sw2; simp [decodeStatusWord]
  · intro sw2; simp [decodeStatusWord]
  · intro sw1 sw2 h1 h2 h3 h4 h5 h6 h7 h8 h9 h10
    simp [decodeStatusWord, h1, h2, h3, h4, h5, h6, h7, h8, h9, h10]

/-- C5 witness: the decode postcondition applied to the empty input and to
`[1, 2, 0x6A, 0x82]`. -/
theorem C5_witness :
    PcscResponse.tryFrom [] = Except.error PcscCodecError.TooShort ∧
    (PcscResponse.tryFrom [1, 2, 0x6A, 0x82] =
      Except.ok ⟨[1, 2, 0x6A, 0x82].take 2,
        decodeStatusWord ([1, 2, 0x6A, 0x82].getD 2 0) ([1, 2, 0x6A, 0x82].getD 3 0)⟩ ∧
      ([1, 2, 0x6A, 0x82].take 2).length + 2 = 4) :=
  ⟨(C5_response_decode_post []).1 (by decide),
   (C5_response_decode_post [1, 2, 0x6A, 0x82]).2.1 (by decide)⟩

/-- C6 (confirmed): command decode fails with TooShort below 5 bytes, with
TooLong above 260 bytes, and with WrongClass on any in-range input whose
first byte is not 0xFF, regardless of the other bytes. -/
theorem C6_command_decode_errors (value : List Nat) :
    (value.length < 5 →
      PcscCommand.tryFrom value = some (Except.error PcscCodecError.TooShort)) ∧
    (value.length > 260 →
      PcscCommand.tryFrom value = some (Except.error PcscCodecError.TooLong)) ∧
    (5 ≤ value.length → value.length ≤ 260 → value.getD 0 0 ≠ 0xFF →
      PcscCommand.tryFrom value = some (Except.error PcscCodecError.WrongClass)) := by
  refine ⟨?_, ?_, ?_⟩
  · intro h
    rw [PcscCommand.tryFrom, if_pos (by simpa [PcscCommand.MIN_LENGTH] using h)]
  · intro h
    rw [PcscCommand.tryFrom, if_neg (by simp [PcscCommand.MIN_LENGTH]; omega),
      if_pos (by simpa [PcscCommand.MAX_LENGTH] using h)]
  · intro h1 h2 h3
    rw [PcscCommand.tryFrom, if_neg (by simp [PcscCommand.MIN_LENGTH]; omega),
      if_neg (by simp [PcscCommand.MAX_LENGTH]; omega), if_pos h3]

/-- C6 witness: the error envelope applied to a 1-byte input, a 261-byte
input, and a 5-byte input with a wrong class byte. -/
theorem C6_witness :
    PcscCommand.tryFrom [0] = some (Except.error PcscCodecError.TooShort) ∧
    PcscCommand.tryFrom (List.replicate 261 0) = some (Except.error PcscCodecError.TooLong) ∧
    PcscCommand.tryFrom [0, 0, 0, 0, 0] = some (Except.error PcscCodecError.WrongClass) :=
  ⟨(C6_command_decode_errors [0]).1 (by decide),
   (C6_command_decode_errors (List.replicate 261 0)).2.1 (by simp only [List.length_replicate]; omega),
   (C6_command_decode_errors [0, 0, 0, 0, 0]).2.2 (by decide) (by decide) (by decide)⟩


/-- C7 (amended): every frame of length 5 to 260 with class byte 0xFF and
instruction byte among 0xCA, 0x82, 0x20, 0xB0, 0xD6 decodes to Ok with no
length-consistency validation (the Lc byte may disagree with the payload);
a 0x86 (GeneralAuthenticate) frame decodes to Ok when its length is at
least 10, but a shorter 0x86 frame makes the decoder index out of bounds
(a panic, modelled as `none`) rather than decode without error. -/
theorem C7_decode_no_length_validation (value : List Nat)
    (h5 : 5 ≤ value.length) (h260 : value.length ≤ 260)
    (hc : value.getD 0 0 = 0xFF) :
    (value.getD 1 0 = 0xCA ∨ value.getD 1 0 = 0x82 ∨ value.getD 1 0 = 0x20 ∨
      value.getD 1 0 = 0xB0 ∨ value.getD 1 0 = 0xD6 →
      ∃ c, PcscCommand.tryFrom value = some (Except.ok c)) ∧
    (value.getD 1 0 = 0x86 → 10 ≤ value.length →
      ∃ c, PcscCommand.tryFrom value = some (Except.ok c)) ∧
    (value.getD 1 0 = 0x86 → value.length < 10 →
      PcscCommand.tryFrom value = none) := by
  have hmin : ¬ (value.length < PcscCommand.MIN_LENGTH) := by
    simp [PcscCommand.MIN_LENGTH]; omega
  have hmax : ¬ (value.length > PcscCommand.MAX_LENGTH) := by
    simp [PcscCommand.MAX_LENGTH]; omega
  have hcls : ¬ (value.getD 0 0 ≠ 0xFF) := by
    rw [hc]
    simp
  refine ⟨?_, ?_, ?_⟩
  · intro hb
    rw [PcscCommand.tryFrom, if_neg hmin, if_neg hmax, if_neg hcls]
    rcases hb with hb | hb | hb | hb | hb
    · exact ⟨⟨.GetData (value.getD 4 0), value.getD 2 0, value.getD 3 0⟩,
        by simp only [hb]; simp⟩
    · exact ⟨⟨.LoadKeys (value.drop 5), value.getD 2 0, value.getD 3 0⟩,
        by simp only [hb]; simp⟩
    · exact ⟨⟨.Verify (value.drop 5), value.getD 2 0, value.getD 3 0⟩,
        by simp only [hb]; simp⟩
    · exact ⟨⟨.ReadBinary (value.getD 4 0), value.getD 2 0, value.getD 3 0⟩,
        by simp only [hb]; simp⟩
    · exact ⟨⟨.UpdateBinary (value.drop 5), value.getD 2 0, value.getD 3 0⟩,
        by simp only [hb]; simp⟩
  · intro hb hlen
    rw [PcscCommand.tryFrom, if_neg hmin, if_neg hmax, if_neg hcls]
    cases h6 : value[6]? with
    | none =>
        rw [List.getElem?_eq_none_iff] at h6
        omega
    | some b6 =>
        cases h7 : value[7]? with
        | none =>
            rw [List.getElem?_eq_none_iff] at h7
            omega
        | some b7 =>
            cases h8 : value[8]? with
            | none =>
                rw [List.getElem?_eq_none_iff] at h8
                omega
            | some b8 =>
                cases h9 : value[9]? with
                | none =>
                    rw [List.getElem?_eq_none_iff] at h9
                    omega
                | some b9 =>
                    exact ⟨⟨.GeneralAuthenticate (256 * b6 + b7)
                        (KeyType.fromByte b8) b9, value.getD 2 0, value.getD 3 0⟩,
                      by simp only [hb]; simp [h6, h7, h8, h9]⟩
  · intro hb hlen
    rw [PcscCommand.tryFrom, if_neg hmin, if_neg hmax, if_neg hcls]
    have h9 : value[9]? = none := by
      rw [List.getElem?_eq_none_iff]
      omega
    simp only [hb]
    cases h6 : value[6]? <;> cases h7 : value[7]? <;> cases h8 : value[8]? <;>
      simp [h6, h7, h8, h9]

/-- C7 witness: the amended theorem applied to a well-formed ten-byte
GeneralAuthenticate frame. -/
theorem C7_witness :
    ∃ c, PcscCommand.tryFrom [0xFF, 0x86, 0, 0, 5, 1, 0, 1, 0x60, 2] =
      some (Except.ok c) :=
  (C7_decode_no_length_validation [0xFF, 0x86, 0, 0, 5, 1, 0, 1, 0x60, 2]
    (by decide) (by decide) (by decide)).2.1 (by decide) (by decide)

/-- C8 (confirmed): encoding GeneralAuthenticate never errors and yields
exactly the ten bytes `[0xFF, 0x86, P1, P2, 0x05, 0x01, address high,
address low, key-type byte, key-slot byte]`, with the key-type byte 0x60
for MifareA (TypeA), 0x61 for MifareB (TypeB), and the carried byte
unchanged for the vendor-specific-unknown case. -/
theorem C8_general_authenticate_encoding (address : Nat) (kt : KeyType)
    (kid p1 p2 : Nat) (h : address < 65536) :
    PcscCommand.toBytes ⟨.GeneralAuthenticate address kt kid, p1, p2⟩ =
      Except.ok [0xFF, 0x86, p1, p2, 5, 1, address / 256, address % 256,
        kt.toByte, kid] ∧
    KeyType.toByte .MifareA = 0x60 ∧ KeyType.toByte .MifareB = 0x61 ∧
    (∀ o, KeyType.toByte (.Unknown o) = o) := by
  refine ⟨?_, rfl, rfl, fun o => rfl⟩
  simp [PcscCommand.toBytes]
  omega

/-- C8 witness: the encoding theorem applied to address 0x1234, key type
MifareA, key slot 7, P1 = 1, P2 = 2. -/
theorem C8_witness :
    PcscCommand.toBytes ⟨.GeneralAuthenticate 0x1234 .MifareA 7, 1, 2⟩ =
      Except.ok [0xFF, 0x86, 1, 2, 5, 1, 0x12, 0x34, 0x60, 7] ∧
    KeyType.toByte .MifareA = 0x60 ∧ KeyType.toByte .MifareB = 0x61 ∧
    (∀ o, KeyType.toByte (.Unknown o) = o) :=
  C8_general_authenticate_encoding 0x1234 .MifareA 7 1 2 (by decide)

/-- C9 (confirmed): for LoadKeys, Verify and UpdateBinary, encode fails
with TooLong exactly when the payload exceeds 255 bytes, and succeeds for
a payload of length exactly 255. -/
theorem C9_encode_payload_boundary (data : List Nat) (p1 p2 : Nat) :
    ((PcscCommand.toBytes ⟨.LoadKeys data, p1, p2⟩ = Except.error PcscCodecError.TooLong ↔
        255 < data.length) ∧
      (data.length = 255 → PcscCommand.toBytes ⟨.LoadKeys data, p1, p2⟩ =
        Except.ok ([0xFF, 0x82, p1, p2, data.length] ++ data))) ∧
    ((PcscCommand.toBytes ⟨.Verify data, p1, p2⟩ = Except.error PcscCodecError.TooLong ↔
        255 < data.length) ∧
      (data.length = 255 → PcscCommand.toBytes ⟨.Verify data, p1, p2⟩ =
        Except.ok ([0xFF, 0x82, p1, p2, data.length] ++ data))) ∧
    ((PcscCommand.toBytes ⟨.UpdateBinary data, p1, p2⟩ = Except.error PcscCodecError.TooLong ↔
        255 < data.length) ∧
      (data.length = 255 → PcscCommand.toBytes ⟨.UpdateBinary data, p1, p2⟩ =
        Except.ok ([0xFF, 0x82, p1, p2, data.length] ++ data))) := by
  refine ⟨⟨?_, ?_⟩, ⟨?_, ?_⟩, ⟨?_, ?_⟩⟩
  · by_cases hl : 255 < data.length <;> simp [PcscCommand.toBytes, hl]
  · intro h255
    simp [PcscCommand.toBytes, h255]
  · by_cases hl : 255 < data.length <;> simp [PcscCommand.toBytes, hl]
  · intro h255
    simp [PcscCommand.toBytes, h255]
  · by_cases hl : 255 < data.length <;> simp [PcscCommand.toBytes, hl]
  · intro h255
    simp [PcscCommand.toBytes, h255]

/-- C9 witness: the boundary theorem applied to payloads of length 255
(success) and 256 (TooLong). -/
theorem C9_witness :
    PcscCommand.toBytes ⟨.LoadKeys (List.replicate 255 0), 0, 0⟩ =
      Except.ok ([0xFF, 0x82, 0, 0, (List.replicate 255 0).length] ++
        List.replicate 255 0) ∧
    PcscCommand.toBytes ⟨.Verify (List.replicate 256 0), 0, 0⟩ =
      Except.error PcscCodecError.TooLong :=
  ⟨(C9_encode_payload_boundary (List.replicate 255 0) 0 0).1.2
      (by simp only [List.length_replicate]),
   (C9_encode_payload_boundary (List.replicate 256 0) 0 0).2.1.1.mpr
      (by simp only [List.length_replicate]; omega)⟩

/-- C10 (amended): the diagnostic lookup is total and pure; it is
independent of the originating instruction for Warning and CommandError
(in particular CommandError 0x82 yields FileNotFound for every
instruction), keyed by (instruction, SW2) for CommandImpossible and also
for MemoryFailure (0x81 means AddressDoesNotExit under 0xCA/0x86 and
WritingFailed under 0x20/0xD6), and returns none for every combination
absent from the table and for every AllowedRetries, WrongLength,
WrongClassByte, WrongParameter, WrongLengthLe, Success or Unknown
status. -/
theorem C10_diagnostic_lookup :
    (∀ ins ins2 sw2, PcscStatusWords.extra_info (.Warning sw2) ins =
      PcscStatusWords.extra_info (.Warning sw2) ins2) ∧
    (∀ ins ins2 sw2, PcscStatusWords.extra_info (.CommandError sw2) ins =
      PcscStatusWords.extra_info (.CommandError sw2) ins2) ∧
    (∀ ins, PcscStatusWords.extra_info (.CommandError 0x82) ins =
      some .FileNotFound) ∧
    PcscStatusWords.extra_info (.CommandImpossible 0x82) 0x82 =
      some .CardKeyNotSupported ∧
    PcscStatusWords.extra_info (.CommandImpossible 0x82) 0x86 =
      some .SecurityStatusUnsatisfied ∧
    PcscStatusWords.extra_info (.MemoryFailure 0x81) 0xCA =
      some .AddressDoesNotExit ∧
    PcscStatusWords.extra_info (.MemoryFailure 0x81) 0x86 =
      some .AddressDoesNotExit ∧
    PcscStatusWords.extra_info (.MemoryFailure 0x81) 0x20 = some .WritingFailed ∧
    PcscStatusWords.extra_info (.MemoryFailure 0x81) 0xD6 = some .WritingFailed ∧
    (∀ ins, PcscStatusWords.extra_info (.Warning 0x99) ins = none) ∧
    (∀ ins sw2, PcscStatusWords.extra_info (.AllowedRetries sw2) ins = none) ∧
    (∀ ins, PcscStatusWords.extra_info .WrongLength ins = none) ∧
    (∀ ins, PcscStatusWords.extra_info .WrongClassByte ins = none) ∧
    (∀ ins, PcscStatusWords.extra_info .WrongParameter ins = none) ∧
    (∀ ins sw2, PcscStatusWords.extra_info (.WrongLengthLe sw2) ins = none) ∧
    (∀ ins, PcscStatusWords.extra_info .Success ins = none) ∧
    (∀ ins sw1 sw2, PcscStatusWords.extra_info (.Unknown sw1 sw2) ins = none) := by
  refine ⟨fun ins ins2 sw2 => rfl, fun ins ins2 sw2 => rfl, fun ins => rfl,
    by decide, by decide, by decide, by decide, by decide, by decide,
    fun ins => rfl, fun ins sw2 => rfl, fun ins => rfl, fun ins => rfl,
    fun ins => rfl, fun ins sw2 => rfl, fun ins => rfl, fun ins sw1 sw2 => rfl⟩

end NfcPcsc
